import Mathlib

/-!
Verification of the rate-limiting reverse proxy (aykhans/reverse-proxy).

Shallow embedding of the Go sources:
  * `pkg/ratelimit/ratelimit.go` — `RequestTracker`, `RateLimiter` (registry + eviction)
  * `pkg/proxy/proxy.go` — admission policy of `ServeHTTP`, `getClientIP`
  * `pkg/webhook/webhook.go` — `NotifyRateLimit`
  * `pkg/config/config.go` — `getEnvAsInt`

Time is modelled as `Int` nanoseconds (Go `time.Time`/`time.Duration` arithmetic
on a monotonic scale); token amounts of the bucket are `Rat`.  Go maps become
functions `String → Option _`.  Fallible operations return `Option`.
-/

namespace ReverseProxy

/-- Go `time.Second` in nanoseconds. -/
def second : Int := 1000000000

/-- Go `time.Minute` in nanoseconds. -/
def minute : Int := 60 * second

/-! ## RequestTracker (pkg/ratelimit/ratelimit.go) -/

/-- `RequestTracker` from `pkg/ratelimit/ratelimit.go`: a 1-second window,
`windowStart` (a `time.Time`, here `Int` nanoseconds) and `currentCount`. -/
structure RequestTracker where
  windowStart : Int
  currentCount : Int
deriving Repr, DecidableEq

/-- `NewRequestTracker`: window starts at the current time with count 0. -/
def NewRequestTracker (now : Int) : RequestTracker :=
  { windowStart := now, currentCount := 0 }

/-- `TrackRequest`: if at least one second has elapsed since `windowStart`,
reset the window (`windowStart := now, currentCount := 0`); then increment
`currentCount` and return it.  `now` is the clock reading `time.Now()`. -/
def TrackRequest (rt : RequestTracker) (now : Int) : RequestTracker × Int :=
  let rt1 :=
    if now - rt.windowStart ≥ second then
      { windowStart := now, currentCount := 0 }
    else rt
  let rt2 := { rt1 with currentCount := rt1.currentCount + 1 }
  (rt2, rt2.currentCount)

/-- Run `TrackRequest` over a list of clock readings, collecting the returned
counts in order. -/
def trackAll (rt : RequestTracker) : List Int → RequestTracker × List Int
  | [] => (rt, [])
  | t :: ts =>
    let p := TrackRequest rt t
    let q := trackAll p.1 ts
    (q.1, p.2 :: q.2)

/-! ### RequestTracker lemmas -/

theorem TrackRequest_reset (rt : RequestTracker) (now : Int)
    (h : second ≤ now - rt.windowStart) :
    TrackRequest rt now = ({ windowStart := now, currentCount := 1 }, 1) := by
  simp [TrackRequest, h]

theorem TrackRequest_inWindow (rt : RequestTracker) (now : Int)
    (h : now - rt.windowStart < second) :
    TrackRequest rt now =
      ({ windowStart := rt.windowStart, currentCount := rt.currentCount + 1 },
       rt.currentCount + 1) := by
  simp [TrackRequest, not_le.mpr h]

theorem trackAll_inWindow (t0 c : Int) (ts : List Int)
    (h : ∀ t ∈ ts, t - t0 < second) :
    (trackAll { windowStart := t0, currentCount := c } ts).1 =
      { windowStart := t0, currentCount := c + ts.length } ∧
    ∀ i : ℕ, i < ts.length →
      ((trackAll { windowStart := t0, currentCount := c } ts).2)[i]? = some (c + i + 1) := by
  induction ts generalizing c with
  | nil => simp [trackAll]
  | cons t ts ih =>
    have ht : t - t0 < second := h t (List.mem_cons_self t ts)
    have hrest : ∀ u ∈ ts, u - t0 < second := fun u hu => h u (List.mem_cons_of_mem t hu)
    have hstep : TrackRequest { windowStart := t0, currentCount := c } t =
        ({ windowStart := t0, currentCount := c + 1 }, c + 1) :=
      TrackRequest_inWindow { windowStart := t0, currentCount := c } t ht
    obtain ⟨ih1, ih2⟩ := ih (c + 1) hrest
    refine ⟨?_, ?_⟩
    · simp only [trackAll, hstep, ih1, List.length_cons, RequestTracker.mk.injEq, true_and]
      push_cast
      ring
    · intro i hi
      cases i with
      | zero => simp [trackAll, hstep]
      | succ j =>
        simp only [trackAll, hstep, List.getElem?_cons_succ]
        rw [ih2 j (by simpa using hi)]
        congr 1
        push_cast
        ring

theorem TrackRequest_windowStart_mono (rt : RequestTracker) (now : Int) :
    rt.windowStart ≤ ((TrackRequest rt now).1).windowStart := by
  unfold TrackRequest
  by_cases h : now - rt.windowStart ≥ second
  · simp only [h, if_pos]
    have hs : (0 : Int) < second := by norm_num [second]
    omega
  · simp [h]

theorem trackAll_windowStart_mono (rt : RequestTracker) (ts : List Int) :
    rt.windowStart ≤ ((trackAll rt ts).1).windowStart := by
  induction ts generalizing rt with
  | nil => simp [trackAll]
  | cons t ts ih =>
    calc rt.windowStart ≤ ((TrackRequest rt t).1).windowStart :=
          TrackRequest_windowStart_mono rt t
      _ ≤ _ := ih (TrackRequest rt t).1

/-! ## TokenBucketGate (spec §4.2; `golang.org/x/time/rate`, external to src/) -/

/-- Modelled from the spec: the per-client token-bucket gate, realised in the
code by `golang.org/x/time/rate.Limiter` (an external dependency, not in
`src/`).  §3/§4.2: attributes `refillRate` (tokens per second), `capacity`,
`tokens`, `lastRefill`.  Token amounts are `Rat`; times are `Int` nanoseconds. -/
structure TokenBucketGate where
  refillRate : Rat
  capacity : Rat
  tokens : Rat
  lastRefill : Int
deriving Repr, DecidableEq

/-- Modelled from the spec: `rate.NewLimiter(r, b)` — a fresh gate starts full
(§8: "starting full (tokens = capacity)"). -/
def newTokenBucketGate (r b : Rat) (now : Int) : TokenBucketGate :=
  { refillRate := r, capacity := b, tokens := b, lastRefill := now }

/-- Modelled from the spec: `tryAcquire` (`rate.Limiter.Allow`), §4.2: add
`elapsed × refillRate` tokens capped at `capacity`, set `lastRefill := now`;
if the result is ≥ 1, subtract 1 and admit, else reject. -/
def tryAcquire (g : TokenBucketGate) (now : Int) : Bool × TokenBucketGate :=
  let elapsedSeconds : Rat := Rat.divInt (now - g.lastRefill) second
  let raw := g.tokens + elapsedSeconds * g.refillRate
  let filled := if g.capacity ≤ raw then g.capacity else raw
  if 1 ≤ filled then
    (true, { g with tokens := filled - 1, lastRefill := now })
  else
    (false, { g with tokens := filled, lastRefill := now })

/-! ## RateLimiter registry (pkg/ratelimit/ratelimit.go) -/

/-- `RateLimiter` from `pkg/ratelimit/ratelimit.go`: the per-client maps
`clients` (gates) and `requests` (trackers) — Go maps become functions into
`Option` — plus the `rate` (tokens/second) and `rps` fields. -/
structure RateLimiter where
  clients : String → Option TokenBucketGate
  requests : String → Option RequestTracker
  rate : Rat
  rps : Int

/-- The refill-interval computation in `NewRateLimiter` (ratelimit.go line 69):
`time.Second / time.Duration(rps)`.  Go integer division truncates toward zero
and panics on a zero divisor, hence `Option`. -/
def refillInterval (rps : Int) : Option Int :=
  if rps = 0 then none else some (Int.tdiv second rps)

/-- `NewRateLimiter` (ratelimit.go lines 65–78): empty maps and
`rate := rate.Every(time.Second / time.Duration(rps))`, i.e. `second / interval`
tokens per second; `none` when the interval computation panics (`rps = 0`).
(`rate.Every` maps a nonpositive interval — negative `rps` — to an infinite
rate; that case is not modelled, the claims use positive `rps`.) -/
def NewRateLimiter (rps : Int) : Option RateLimiter :=
  (refillInterval rps).map fun iv =>
    { clients := fun _ => none, requests := fun _ => none,
      rate := Rat.divInt second iv, rps := rps }

/-- `GetLimiter` (ratelimit.go lines 98–115): look up the gate and the tracker
for `ip`, creating and inserting each one (`rate.NewLimiter(rl.rate, 1)`,
`NewRequestTracker()`) when absent. -/
def GetLimiter (rl : RateLimiter) (ip : String) (now : Int) :
    (TokenBucketGate × RequestTracker) × RateLimiter :=
  let cl :=
    match rl.clients ip with
    | some l => (l, rl.clients)
    | none =>
      let l := newTokenBucketGate rl.rate 1 now
      (l, fun k => if k = ip then some l else rl.clients k)
  let rq :=
    match rl.requests ip with
    | some t => (t, rl.requests)
    | none =>
      let t := NewRequestTracker now
      (t, fun k => if k = ip then some t else rl.requests k)
  ((cl.1, rq.1), { rl with clients := cl.2, requests := rq.2 })

/-- One sweep of the `cleanup` loop body (ratelimit.go lines 81–95, one ticker
tick): for every ip in `requests` whose tracker satisfies
`now - windowStart > time.Minute`, delete the entry from both maps. -/
def cleanupSweep (rl : RateLimiter) (now : Int) : RateLimiter :=
  { rl with
    requests := fun ip =>
      match rl.requests ip with
      | some t => if now - t.windowStart > minute then none else some t
      | none => none,
    clients := fun ip =>
      match rl.requests ip with
      | some t => if now - t.windowStart > minute then none else rl.clients ip
      | none => rl.clients ip }

/-! ## Dispatcher (pkg/proxy/proxy.go, ServeHTTP lines 89–121) -/

/-- The observable outcome of one `ServeHTTP` call: whether the request was
forwarded, whether `limiter.Allow()` was called, the response status issued on
rejection (Go `http.StatusTooManyRequests = 429`), and the arguments passed to
`NotifyRateLimit` if a notification was sent. -/
structure ServeOutcome where
  admitted : Bool
  gateConsulted : Bool
  status : Option Int
  notification : Option (Int × Int)
deriving Repr, DecidableEq

/-- The admission policy of `ServeHTTP` (proxy.go lines 99–113), applied after
`currentRPS := tracker.TrackRequest()`: only when `currentRPS > limit` is the
gate consulted, and a failed `limiter.Allow()` yields a notification with
`(limit, currentRPS)` and a 429 response. -/
def admitDecision (limit currentRPS : Int) (g : TokenBucketGate) (now : Int) :
    ServeOutcome × TokenBucketGate :=
  if currentRPS > limit then
    let r := tryAcquire g now
    if r.1 then
      ({ admitted := true, gateConsulted := true, status := none, notification := none }, r.2)
    else
      ({ admitted := false, gateConsulted := true, status := some 429,
         notification := some (limit, currentRPS) }, r.2)
  else
    ({ admitted := true, gateConsulted := false, status := none, notification := none }, g)

/-- `ServeHTTP` (proxy.go lines 89–121) for a resolved client ip at clock
reading `now`: get-or-create the (gate, tracker) pair, track the request, and
apply the admission policy; the mutated tracker and gate are written back
(in Go they are mutated through pointers held by the maps).  The limit is
`rp.config.RateLimit`, the same value `rl.rps` was built from. -/
def ServeHTTP (rl : RateLimiter) (ip : String) (now : Int) :
    ServeOutcome × RateLimiter :=
  let g := GetLimiter rl ip now
  let tr := TrackRequest g.1.2 now
  let d := admitDecision g.2.rps tr.2 g.1.1 now
  (d.1,
   { g.2 with
     clients := fun k => if k = ip then some d.2 else (g.2).clients k,
     requests := fun k => if k = ip then some tr.1 else (g.2).requests k })

/-- Run `ServeHTTP` for one client over a list of clock readings, collecting
the outcomes in order. -/
def serveAll (rl : RateLimiter) (ip : String) : List Int → RateLimiter × List ServeOutcome
  | [] => (rl, [])
  | t :: ts =>
    let p := ServeHTTP rl ip t
    let q := serveAll p.2 ip ts
    (q.1, p.1 :: q.2)

/-! ## Client identity resolution (pkg/proxy/proxy.go, getClientIP) -/

/-- The request fields read by `getClientIP`: the `X-Forwarded-For` and
`X-Real-IP` header values (`""` when the header is absent, as Go's
`Header.Get` returns) and the transport peer address `RemoteAddr`. -/
structure Request where
  xForwardedFor : String
  xRealIP : String
  remoteAddr : String
deriving Repr, DecidableEq

/-- Modelled from the spec: `net.SplitHostPort` (Go standard library, not in
`src/`) — splits `host:port` at the last colon, stripping the brackets of a
bracketed IPv6 host; an address without a colon is missing its port and is an
error (`none`), as is an unbracketed host containing a colon.  On error Go
returns empty host and port alongside the error. -/
def splitHostPort (hostport : String) : Option (String × String) :=
  let cs := hostport.toList
  match cs.reverse.findIdx? (· = ':') with
  | none => none
  | some k =>
    let i := cs.length - 1 - k
    let rawHost := cs.take i
    let port := cs.drop (i + 1)
    match rawHost with
    | '[' :: rest =>
      if rest.getLast? = some ']' then some (String.mk rest.dropLast, String.mk port)
      else none
    | _ =>
      if ':' ∈ rawHost then none else some (String.mk rawHost, String.mk port)

/-- `getClientIP` (proxy.go lines 129–145): `X-Forwarded-For` verbatim when
non-empty, else `X-Real-IP` when non-empty, else the host part of
`RemoteAddr`, with the `net.SplitHostPort` error discarded (empty host on
error: `ip, _, _ := net.SplitHostPort(r.RemoteAddr)`). -/
def getClientIP (r : Request) : String :=
  if r.xForwardedFor ≠ "" then r.xForwardedFor
  else if r.xRealIP ≠ "" then r.xRealIP
  else
    match splitHostPort r.remoteAddr with
    | some hp => hp.1
    | none => ""

/-! ## Webhook notifier (pkg/webhook/webhook.go) -/

/-- A JSON value as appears in the `NotifyRateLimit` payload map
(`map[string]interface` of strings and ints). -/
inductive JsonValue where
  | str : String → JsonValue
  | int : Int → JsonValue
deriving Repr, DecidableEq

/-- Modelled from the spec: `encoding/json` string quoting (Go standard
library).  Escapes the quote and the backslash; control characters and the
HTML-escaped characters do not occur in the payloads of the claims. -/
def goQuote (s : String) : String :=
  "\"" ++ String.join (s.toList.map fun c =>
    if c = '"' then "\\\"" else if c = '\\' then "\\\\" else String.mk [c]) ++ "\""

/-- Serialize one payload value as `encoding/json` does: strings quoted, ints
in decimal. -/
def jsonSerialize : JsonValue → String
  | .str s => goQuote s
  | .int n => toString n

/-- Byte-wise lexicographic string order, as Go's `sort.Strings` compares the
keys of a marshalled map (the payload keys are ASCII, where byte order and
char order agree). -/
def keyLe : List Char → List Char → Bool
  | [], _ => true
  | _ :: _, [] => false
  | a :: as, b :: bs =>
    if a.toNat = b.toNat then keyLe as bs
    else decide (a.toNat < b.toNat)

/-- Insert a key/value pair into a key-sorted association list. -/
def insertByKey (p : String × JsonValue) :
    List (String × JsonValue) → List (String × JsonValue)
  | [] => [p]
  | q :: rest => if keyLe p.1.toList q.1.toList then p :: q :: rest else q :: insertByKey p rest

/-- Sort an association list by key. -/
def sortByKey : List (String × JsonValue) → List (String × JsonValue)
  | [] => []
  | p :: rest => insertByKey p (sortByKey rest)

/-- Modelled from the spec: `json.Marshal` of a Go map (standard library) —
map keys are emitted in sorted order, with no whitespace:
`\x7b"k":v,...\x7d`. -/
def marshalMap (kvs : List (String × JsonValue)) : String :=
  "\x7b" ++ String.intercalate ","
      ((sortByKey kvs).map fun kv => goQuote kv.1 ++ ":" ++ jsonSerialize kv.2)
    ++ "\x7d"

/-- `Notifier` from webhook.go. -/
structure Notifier where
  webhookURL : String
  containerID : String
deriving Repr, DecidableEq

/-- An outbound `http.Post` call as issued by `NotifyRateLimit`. -/
structure OutboundPost where
  url : String
  contentType : String
  body : String
deriving Repr, DecidableEq

/-- `NotifyRateLimit` (webhook.go lines 25–51): when `webhookURL` is empty,
skip — no outbound call, success (`nil`).  Otherwise marshal the payload map
`container_id / limit_expected_rps / limit_exceeded_rps / message` and issue a
single POST with content type `application/json`.  The result is the call
made, if any. -/
def NotifyRateLimit (n : Notifier) (expectedRPS receivedRPS : Int) : Option OutboundPost :=
  if n.webhookURL = "" then none
  else
    some { url := n.webhookURL, contentType := "application/json",
           body := marshalMap
             [("container_id", .str n.containerID),
              ("limit_expected_rps", .int expectedRPS),
              ("limit_exceeded_rps", .int receivedRPS),
              ("message", .str "Rate limit exceeded")] }

/-! ## Configuration (pkg/config/config.go) -/

/-- Digit-string parsing used by `strconv.Atoi`: one or more decimal digits. -/
def parseDigits (cs : List Char) : Option Nat :=
  if cs.isEmpty then none
  else if cs.all Char.isDigit then
    some (cs.foldl (fun a c => 10 * a + (c.toNat - Char.toNat '0')) 0)
  else none

/-- Modelled from the spec: `strconv.Atoi` (Go standard library) — an optional
sign followed by decimal digits; anything else is an error.  (The int64
overflow error is not modelled; the claims use small values.) -/
def goAtoi (s : String) : Option Int :=
  match s.toList with
  | '+' :: rest => (parseDigits rest).map fun n => (n : Int)
  | '-' :: rest => (parseDigits rest).map fun n => -(n : Int)
  | cs => (parseDigits cs).map fun n => (n : Int)

/-- `getEnvAsInt` (config.go lines 52–60): `value` is what `os.Getenv` returns
(`""` when unset); a non-empty value that parses as an integer is used as-is
— any integer, with no range check — and anything else falls back to the
default. -/
def getEnvAsInt (value : String) (defaultValue : Int) : Int :=
  if value ≠ "" then
    match goAtoi value with
    | some n => n
    | none => defaultValue
  else defaultValue

/-! ## Shared concrete states for witnesses -/

/-- An empty registry with limit 10 (the state `NewRateLimiter 10` yields). -/
def rlTen : RateLimiter :=
  { clients := fun _ => none, requests := fun _ => none, rate := 10, rps := 10 }

/-- A registry holding one client `"a"` whose window started at time 0. -/
def rlDemo : RateLimiter :=
  { clients := fun k => if k = "a" then some (newTokenBucketGate 10 1 0) else none,
    requests := fun k => if k = "a" then some { windowStart := 0, currentCount := 3 } else none,
    rate := 10, rps := 10 }

/-- The key sets of the gate map and the tracker map agree (each client has
either both entries or neither). -/
def keysAligned (rl : RateLimiter) : Prop :=
  ∀ ip, (rl.clients ip).isSome = (rl.requests ip).isSome

/-! ## Claims -/

/-- C1: for every inbound request the dispatcher admits without consulting the
token bucket whenever the tracked count is at most the configured limit; only
when it strictly exceeds the limit is `tryAcquire` consulted, and the request
is rejected exactly when that consultation returns false. -/
theorem C1_dispatcher_admission (rl : RateLimiter) (ip : String) (now : Int) :
    ((TrackRequest (GetLimiter rl ip now).1.2 now).2 ≤ rl.rps →
      (ServeHTTP rl ip now).1 =
        { admitted := true, gateConsulted := false, status := none, notification := none })
  ∧ (rl.rps < (TrackRequest (GetLimiter rl ip now).1.2 now).2 →
      (ServeHTTP rl ip now).1.gateConsulted = true ∧
      ((ServeHTTP rl ip now).1.admitted = false ↔
        (tryAcquire (GetLimiter rl ip now).1.1 now).1 = false)) := by
  have hserve : (ServeHTTP rl ip now).1 =
      (admitDecision rl.rps (TrackRequest (GetLimiter rl ip now).1.2 now).2
        (GetLimiter rl ip now).1.1 now).1 := rfl
  constructor
  · intro h
    rw [hserve]
    unfold admitDecision
    rw [if_neg (not_lt.mpr h)]
  · intro h
    rw [hserve]
    unfold admitDecision
    rw [if_pos h]
    cases h3 : (tryAcquire (GetLimiter rl ip now).1.1 now).1 <;> simp [h3]

theorem C1_dispatcher_admission_witness :
    (ServeHTTP rlTen "a" 0).1 =
      { admitted := true, gateConsulted := false, status := none, notification := none } :=
  (C1_dispatcher_admission rlTen "a" 0).1 (by decide)

/-- C2: `TrackRequest` resets the window (`windowStart := now, count := 0`)
before counting whenever at least one second elapsed since `windowStart` — the
first call after the second elapses returns 1 — and otherwise returns the
incremented in-window count, so the n-th of a sequence of calls within one
second of a fresh tracker's window returns n. -/
theorem C2_trackRequest_window (rt : RequestTracker) (now t0 : Int) (ts : List Int) :
    (second ≤ now - rt.windowStart →
      TrackRequest rt now = ({ windowStart := now, currentCount := 1 }, 1))
  ∧ (now - rt.windowStart < second →
      TrackRequest rt now =
        ({ windowStart := rt.windowStart, currentCount := rt.currentCount + 1 },
         rt.currentCount + 1))
  ∧ ((∀ t ∈ ts, t - t0 < second) →
      ∀ i : ℕ, i < ts.length →
        ((trackAll (NewRequestTracker t0) ts).2)[i]? = some (i + 1)) := by
  refine ⟨TrackRequest_reset rt now, TrackRequest_inWindow rt now, ?_⟩
  intro h i hi
  have := (trackAll_inWindow t0 0 ts h).2 i hi
  simpa [NewRequestTracker] using this

theorem C2_trackRequest_window_witness :
    TrackRequest { windowStart := 0, currentCount := 7 } second =
      ({ windowStart := second, currentCount := 1 }, 1) ∧
    ((trackAll (NewRequestTracker 0) [0, 1, 2]).2)[2]? = some 3 :=
  ⟨(C2_trackRequest_window { windowStart := 0, currentCount := 7 } second 0 []).1 (by decide),
   (C2_trackRequest_window { windowStart := 0, currentCount := 7 } second 0 [0, 1, 2]).2.2
     (by decide) 2 (by decide)⟩

attribute [local semireducible] Rat.add Rat.mul Rat.sub in
/-- C3: with limit 10 and a fresh client, 10 requests within one second are all
admitted with the gate never consulted; the 11th (observed 11 > 10) consults
the gate, which still holds its initial token and admits; the 12th immediate
request goes through the gate, finds insufficient refill, and is rejected with
429 and exactly one notification carrying (expected 10, exceeded 12). -/
theorem C3_limit10_scenario :
    (NewRateLimiter 10).map (fun rl => (serveAll rl "1.2.3.4" (List.replicate 12 0)).2) =
      some (List.replicate 10
          { admitted := true, gateConsulted := false, status := none, notification := none } ++
        [{ admitted := true, gateConsulted := true, status := none, notification := none },
         { admitted := false, gateConsulted := true, status := some 429,
           notification := some (10, 12) }]) := by
  decide

/-- Serialize an association list as a JSON object with its fields exactly in
list order (spec-side definition, used to state wire contracts). -/
def jsonObject (kvs : List (String × JsonValue)) : String :=
  "\x7b" ++ String.intercalate ","
      (kvs.map fun kv => goQuote kv.1 ++ ":" ++ jsonSerialize kv.2)
    ++ "\x7d"

/-- Sorting the `NotifyRateLimit` payload map's keys puts `limit_exceeded_rps`
before `limit_expected_rps`. -/
theorem sortPayload (cid : String) (a b : Int) :
    sortByKey [("container_id", .str cid), ("limit_expected_rps", .int a),
               ("limit_exceeded_rps", .int b), ("message", .str "Rate limit exceeded")] =
      [("container_id", .str cid), ("limit_exceeded_rps", .int b),
       ("limit_expected_rps", .int a), ("message", .str "Rate limit exceeded")] := by
  rfl

/-- The notification body exactly as claim C4 orders its fields —
`container_id`, `limit_expected_rps`, `limit_exceeded_rps`, `message` —
(spec-side definition, for comparison with the code's serialization). -/
def claimedBodyC4 (cid : String) (expected exceeded : Int) : String :=
  "\x7b\"container_id\":" ++ goQuote cid ++
    ",\"limit_expected_rps\":" ++ toString expected ++
    ",\"limit_exceeded_rps\":" ++ toString exceeded ++
    ",\"message\":\"Rate limit exceeded\"\x7d"

/-- C4 counterexample: at container id "c", expected 10, exceeded 12, the body
the code serializes is not the claimed field order (Go marshals a map with its
keys sorted, so `limit_exceeded_rps` precedes `limit_expected_rps`). -/
theorem C4_payload_order_counterexample :
    ¬ ((NotifyRateLimit { webhookURL := "http://w", containerID := "c" } 10 12).map
        (fun p => p.body) = some (claimedBodyC4 "c" 10 12)) := by
  decide

/-- C4 (amended): a configured rejection notification is a single POST with
JSON content type whose body is the JSON object with fields in the order
`container_id`, `limit_exceeded_rps`, `limit_expected_rps`, `message` (Go's
`json.Marshal` sorts map keys); with no target configured the notify is a
no-op producing no outbound call. -/
theorem C4_notification_wire (n : Notifier) (expected exceeded : Int) :
    (n.webhookURL = "" → NotifyRateLimit n expected exceeded = none)
  ∧ (n.webhookURL ≠ "" →
      NotifyRateLimit n expected exceeded =
        some { url := n.webhookURL, contentType := "application/json",
               body := jsonObject
                 [("container_id", .str n.containerID),
                  ("limit_exceeded_rps", .int exceeded),
                  ("limit_expected_rps", .int expected),
                  ("message", .str "Rate limit exceeded")] }) := by
  constructor
  · intro h
    simp [NotifyRateLimit, h]
  · intro h
    unfold NotifyRateLimit
    rw [if_neg h]
    unfold marshalMap jsonObject
    rw [sortPayload]

theorem C4_notification_wire_witness :
    NotifyRateLimit { webhookURL := "", containerID := "c" } 10 12 = none ∧
    NotifyRateLimit { webhookURL := "http://w", containerID := "c" } 10 12 =
      some { url := "http://w", contentType := "application/json",
             body := jsonObject
               [("container_id", .str "c"),
                ("limit_exceeded_rps", .int 12),
                ("limit_expected_rps", .int 10),
                ("message", .str "Rate limit exceeded")] } :=
  ⟨(C4_notification_wire { webhookURL := "", containerID := "c" } 10 12).1 rfl,
   (C4_notification_wire { webhookURL := "http://w", containerID := "c" } 10 12).2 (by decide)⟩

/-- C5: the client identity is the first non-empty value among the
`X-Forwarded-For` header taken verbatim, the `X-Real-IP` header, and the
transport peer address with its port stripped. -/
theorem C5_client_identity_precedence (r : Request) :
    (r.xForwardedFor ≠ "" → getClientIP r = r.xForwardedFor)
  ∧ (r.xForwardedFor = "" → r.xRealIP ≠ "" → getClientIP r = r.xRealIP)
  ∧ (r.xForwardedFor = "" → r.xRealIP = "" → ∀ host port,
      splitHostPort r.remoteAddr = some (host, port) → getClientIP r = host) := by
  refine ⟨?_, ?_, ?_⟩
  · intro h
    simp [getClientIP, h]
  · intro h1 h2
    simp [getClientIP, h1, h2]
  · intro h1 h2 host port hsp
    simp [getClientIP, h1, h2, hsp]

theorem C5_client_identity_precedence_witness :
    getClientIP { xForwardedFor := "10.0.0.1, 10.0.0.2", xRealIP := "",
                  remoteAddr := "1.1.1.1:9" } = "10.0.0.1, 10.0.0.2" ∧
    getClientIP { xForwardedFor := "", xRealIP := "2.2.2.2",
                  remoteAddr := "1.1.1.1:9" } = "2.2.2.2" ∧
    getClientIP { xForwardedFor := "", xRealIP := "",
                  remoteAddr := "9.9.9.9:80" } = "9.9.9.9" :=
  ⟨(C5_client_identity_precedence _).1 (by decide),
   (C5_client_identity_precedence _).2.1 rfl (by decide),
   (C5_client_identity_precedence _).2.2 rfl rfl "9.9.9.9" "80" (by decide)⟩

/-- C6: after a cleanup sweep, a client whose tracker window has been idle for
longer than one minute is absent from both registry maps, and a client whose
window was touched within the minute keeps its tracker and gate entries. -/
theorem C6_eviction_sweep (rl : RateLimiter) (now : Int) (ip : String) (t : RequestTracker) :
    (rl.requests ip = some t → minute < now - t.windowStart →
      (cleanupSweep rl now).requests ip = none ∧ (cleanupSweep rl now).clients ip = none)
  ∧ (rl.requests ip = some t → now - t.windowStart ≤ minute →
      (cleanupSweep rl now).requests ip = some t ∧
      (cleanupSweep rl now).clients ip = rl.clients ip) := by
  constructor
  · intro h1 h2
    constructor <;> simp [cleanupSweep, h1, h2]
  · intro h1 h2
    constructor <;> simp [cleanupSweep, h1, not_lt.mpr h2]

theorem C6_eviction_sweep_witness :
    ((cleanupSweep rlDemo (2 * minute)).requests "a" = none ∧
      (cleanupSweep rlDemo (2 * minute)).clients "a" = none) ∧
    ((cleanupSweep rlDemo minute).requests "a" = some { windowStart := 0, currentCount := 3 } ∧
      (cleanupSweep rlDemo minute).clients "a" = rlDemo.clients "a") :=
  ⟨(C6_eviction_sweep rlDemo (2 * minute) "a" { windowStart := 0, currentCount := 3 }).1
      rfl (by decide),
   (C6_eviction_sweep rlDemo minute "a" { windowStart := 0, currentCount := 3 }).2
      rfl (by decide)⟩

/-- C7: through construction, every get-or-create and every eviction sweep,
the gate map and the tracker map have equal key sets — each client has either
no entries or exactly one gate and one tracker, created together and evicted
together. -/
theorem C7_registry_pairing (rps : Int) (rl0 rl : RateLimiter) (ip : String) (now : Int) :
    (NewRateLimiter rps = some rl0 → keysAligned rl0)
  ∧ (keysAligned rl → keysAligned ((GetLimiter rl ip now).2))
  ∧ (keysAligned rl → keysAligned (cleanupSweep rl now)) := by
  refine ⟨?_, ?_, ?_⟩
  · intro h
    by_cases hz : rps = 0
    · simp [NewRateLimiter, refillInterval, hz] at h
    · simp [NewRateLimiter, refillInterval, hz] at h
      intro k
      subst h
      rfl
  · intro h k
    by_cases hk : k = ip
    · subst hk
      unfold GetLimiter
      cases hc : rl.clients k <;> cases hr : rl.requests k <;> simp [hc, hr]
    · unfold GetLimiter
      cases hc : rl.clients ip <;> cases hr : rl.requests ip <;> simp [hc, hr, hk, h k]
  · intro h k
    unfold cleanupSweep
    cases hr : rl.requests k with
    | none =>
      have := h k
      rw [hr] at this
      simp [hr, this]
    | some t =>
      have := h k
      rw [hr] at this
      by_cases hs : minute < now - t.windowStart <;> simp [hr, hs, this]

theorem C7_registry_pairing_witness : keysAligned ((GetLimiter rlTen "a" 0).2) :=
  (C7_registry_pairing 10 rlTen rlTen "a" 0).2.1 (fun _ => rfl)

/-- C8: a tracker's `windowStart` never decreases — each `TrackRequest` call,
and any run of calls, leaves `windowStart` at or later than its previous
value, whatever the clock readings. -/
theorem C8_windowStart_monotone (rt : RequestTracker) (now : Int) (ts : List Int) :
    rt.windowStart ≤ ((TrackRequest rt now).1).windowStart ∧
    rt.windowStart ≤ ((trackAll rt ts).1).windowStart :=
  ⟨TrackRequest_windowStart_mono rt now, trackAll_windowStart_mono rt ts⟩

/-- C9: a request with neither forwarding header and a peer address with no
port separator resolves to the empty-string identity (the split error is
discarded), so all such clients share the one entry keyed by `""`. -/
theorem C9_empty_identity_fallback (r1 r2 : Request) :
    r1.xForwardedFor = "" → r1.xRealIP = "" → splitHostPort r1.remoteAddr = none →
    r2.xForwardedFor = "" → r2.xRealIP = "" → splitHostPort r2.remoteAddr = none →
    getClientIP r1 = "" ∧ getClientIP r1 = getClientIP r2 := by
  intro h1 h2 h3 h4 h5 h6
  have g1 : getClientIP r1 = "" := by simp [getClientIP, h1, h2, h3]
  have g2 : getClientIP r2 = "" := by simp [getClientIP, h4, h5, h6]
  exact ⟨g1, g1.trans g2.symm⟩

theorem C9_empty_identity_fallback_witness :
    getClientIP { xForwardedFor := "", xRealIP := "", remoteAddr := "localhost" } = "" ∧
    getClientIP { xForwardedFor := "", xRealIP := "", remoteAddr := "localhost" } =
      getClientIP { xForwardedFor := "", xRealIP := "", remoteAddr := "192.168.0.7" } :=
  C9_empty_identity_fallback
    { xForwardedFor := "", xRealIP := "", remoteAddr := "localhost" }
    { xForwardedFor := "", xRealIP := "", remoteAddr := "192.168.0.7" }
    rfl rfl (by decide) rfl rfl (by decide)

/-- C10: the refill-interval computation divides one second by `rps` and is a
division by zero at `rps = 0` (constructing the limiter is well-defined only
for nonzero — in particular any `rps ≥ 1` — values), while the configuration
loader passes any parsable integer through, accepting `RATE_LIMIT=0`. -/
theorem C10_rps_zero_precondition (rps : Int) (s : String) (n defaultValue : Int) :
    refillInterval 0 = none ∧ NewRateLimiter 0 = none
  ∧ (rps ≠ 0 → (refillInterval rps).isSome ∧ (NewRateLimiter rps).isSome)
  ∧ (s ≠ "" → goAtoi s = some n → getEnvAsInt s defaultValue = n)
  ∧ getEnvAsInt "0" 10 = 0 := by
  refine ⟨rfl, rfl, ?_, ?_, by decide⟩
  · intro h
    constructor <;> simp [refillInterval, NewRateLimiter, h]
  · intro hs ha
    simp [getEnvAsInt, hs, ha]

theorem C10_rps_zero_precondition_witness :
    ((refillInterval 10).isSome ∧ (NewRateLimiter 10).isSome) ∧
    getEnvAsInt "0" 99 = 0 :=
  ⟨(C10_rps_zero_precondition 10 "0" 0 99).2.2.1 (by decide),
   (C10_rps_zero_precondition 10 "0" 0 99).2.2.2.1 (by decide) (by decide)⟩

end ReverseProxy
